import Mathlib

/-!
Verification development for the hylo-sdk pricing core: a shallow embedding
of `hylo-core/src/exchange_context.rs` and `hylo-jupiter/src/quote.rs`,
together with models of the supporting modules (fixed-point arithmetic,
exchange math, fee controller, stability controller, caches and oracle)
whose sources are referenced but not available; those are modelled from the
specification and are marked as such in their doc comments.
-/

namespace Hylo

/-- Powers of ten used as fixed-point denominators. -/
def pow10 (n : Nat) : Nat := 10 ^ n

/-- Exclusive upper bound of the 64-bit unsigned range. -/
def U64MOD : Nat := 2 ^ 64

/-- Unsigned 64-bit fixed-point value with `e` decimal fractional digits,
mirroring `UFix64<N(e)>` of the `fix` crate: the raw `bits` field holds the
value scaled by `10 ^ e`. -/
structure UFix64 (e : Nat) where
  bits : Nat
deriving DecidableEq, Repr

/-- The value 1.0 at scale `e` (`UFix64::one`). -/
def UFix64.one (e : Nat) : UFix64 e := ⟨pow10 e⟩

/-- Checked addition on 64-bit fixed point: fails when the sum leaves the
u64 range, as `u64::checked_add` does. -/
def UFix64.checked_add {e : Nat} (a b : UFix64 e) : Option (UFix64 e) :=
  if a.bits + b.bits < U64MOD then some ⟨a.bits + b.bits⟩ else none

/-- Checked subtraction on 64-bit fixed point: fails on underflow, as
`u64::checked_sub` does. -/
def UFix64.checked_sub {e : Nat} (a b : UFix64 e) : Option (UFix64 e) :=
  if b.bits ≤ a.bits then some ⟨a.bits - b.bits⟩ else none

/-- Error kinds of the core.  The variants `DestinationFeeSol`,
`DestinationFeeStablecoin`, `LevercoinNav`, `NoNextStabilityThreshold` and
`RequestedStablecoinOverMaxMintable` appear in the import list of
`exchange_context.rs`; the remaining variants model the taxonomy of the
specification (`error.rs` is not available). -/
inductive CoreError where
  | StaleCollateralCache
  | StalePrice
  | PriceConfidence
  | ArithmeticOverflow
  | DivisionByZero
  | LevercoinNav
  | NoNextStabilityThreshold
  | RequestedStablecoinOverMaxMintable
  | DestinationFeeSol
  | DestinationFeeStablecoin
deriving DecidableEq, Repr

/-- Lifts Rust `Option::ok_or` into the `Except` monad. -/
def okOr {α : Type} (o : Option α) (e : CoreError) : Except CoreError α :=
  match o with
  | some a => .ok a
  | none => .error e

/-- Discretized health state of the protocol, healthiest first
(`stability_mode.rs` is not available; the variant set and its total order
are fixed by the specification). -/
inductive StabilityMode where
  | Stable
  | Decay
  | Depeg
deriving DecidableEq, Repr

/-- Modelled from the spec: the ordinal mapping Stable = 0, Decay = 1,
Depeg = 2 underlying the derived order on stability modes. -/
def StabilityMode.ord : StabilityMode → Nat
  | .Stable => 0
  | .Decay => 1
  | .Depeg => 2

/-- Modelled from the spec: stability-mode comparison is comparison of
ordinals (design note: `{Stable=0, Decay=1, Depeg=2}`). -/
def StabilityMode.lt (a b : StabilityMode) : Prop := a.ord < b.ord

instance : DecidablePred (fun p : StabilityMode × StabilityMode => StabilityMode.lt p.1 p.2) :=
  fun p => Nat.decLt p.1.ord p.2.ord

/-- Modelled from the spec: the stability controller holds two descending
collateral-ratio thresholds (`threshold_1 > threshold_2`), both at the
9-decimal ratio scale (`stability_mode.rs` is not available). -/
structure StabilityController where
  threshold_1 : UFix64 9
  threshold_2 : UFix64 9
deriving DecidableEq, Repr

/-- Modelled from the spec: `ratio ≥ threshold_1 → Stable`;
`threshold_2 ≤ ratio < threshold_1 → Decay`; `ratio < threshold_2 → Depeg`. -/
def StabilityController.stability_mode (c : StabilityController)
    (ratio : UFix64 9) : StabilityMode :=
  if c.threshold_1.bits ≤ ratio.bits then .Stable
  else if c.threshold_2.bits ≤ ratio.bits then .Decay
  else .Depeg

/-- Modelled from the spec: `min_stability_threshold()` returns
`threshold_2`, the floor used for mint ceilings. -/
def StabilityController.min_stability_threshold
    (c : StabilityController) : UFix64 9 :=
  c.threshold_2

/-- Oracle price confidence interval at scale `e`: `lower ≤ upper`. -/
structure PriceRange (e : Nat) where
  lower : UFix64 e
  upper : UFix64 e
deriving DecidableEq, Repr

/-- Modelled from the spec: total value locked is
`total_collateral × price_lower` at 9 decimals, with checked arithmetic
(`exchange_math.rs` is not available). -/
def total_value_locked (total_sol : UFix64 9) (price : UFix64 8) :
    Except CoreError (UFix64 9) :=
  let bits := total_sol.bits * price.bits / pow10 8
  if bits < U64MOD then .ok ⟨bits⟩ else .error .ArithmeticOverflow

/-- Modelled from the spec: collateral ratio is
`(total_collateral × price_lower) / stablecoin_supply`, failing on zero
supply or overflow (`exchange_math.rs` is not available). -/
def collateral_ratio (total_sol : UFix64 9) (price : UFix64 8)
    (stablecoin_supply : UFix64 6) : Except CoreError (UFix64 9) := do
  let tvl ← total_value_locked total_sol price
  if stablecoin_supply.bits = 0 then .error .DivisionByZero
  else
    let bits := tvl.bits * pow10 6 / stablecoin_supply.bits
    if bits < U64MOD then .ok ⟨bits⟩ else .error .ArithmeticOverflow

/-- Modelled from the spec: in depeg the stablecoin NAV is
`total_value_locked / stablecoin_supply` at the oracle lower bound
(`exchange_math.rs` is not available). -/
def depeg_stablecoin_nav (total_sol : UFix64 9) (price : UFix64 8)
    (stablecoin_supply : UFix64 6) : Except CoreError (UFix64 9) := do
  let tvl ← total_value_locked total_sol price
  if stablecoin_supply.bits = 0 then .error .DivisionByZero
  else
    let bits := tvl.bits * pow10 9 / (stablecoin_supply.bits * pow10 3)
    if bits < U64MOD then .ok ⟨bits⟩ else .error .ArithmeticOverflow

/-- Modelled from the spec: the largest additional stablecoin supply such
that, at the oracle upper bound, the resulting collateral ratio stays at or
above `min_threshold` (`exchange_math.rs` is not available). -/
def max_mintable_stablecoin (min_threshold : UFix64 9)
    (total_sol : UFix64 9) (price_upper : UFix64 8)
    (stablecoin_supply : UFix64 6) : Except CoreError (UFix64 6) := do
  let tvl ← total_value_locked total_sol price_upper
  if min_threshold.bits = 0 then .error .DivisionByZero
  else
    let cap := tvl.bits * pow10 6 / min_threshold.bits
    if cap < U64MOD then
      okOr (UFix64.checked_sub ⟨cap⟩ stablecoin_supply) .ArithmeticOverflow
    else .error .ArithmeticOverflow

/-- Modelled from the spec: the largest additional stablecoin supply
reachable by a levercoin-to-stablecoin swap without total value locked
changing, bounded by `threshold` (`exchange_math.rs` is not available). -/
def max_swappable_stablecoin (threshold : UFix64 9) (tvl : UFix64 9)
    (stablecoin_supply : UFix64 6) : Except CoreError (UFix64 6) :=
  if threshold.bits = 0 then .error .DivisionByZero
  else
    let cap := tvl.bits * pow10 6 / threshold.bits
    if cap < U64MOD then
      okOr (UFix64.checked_sub ⟨cap⟩ stablecoin_supply) .ArithmeticOverflow
    else .error .ArithmeticOverflow

/-- Modelled from the spec: levercoin mint NAV is
`(total_value_locked − stablecoin_supply × stablecoin_nav) / levercoin_supply`
at the oracle upper bound, with `None` on any arithmetic failure
(`exchange_math.rs` is not available). -/
def next_levercoin_mint_nav (total_sol : UFix64 9) (price : PriceRange 8)
    (stablecoin_supply : UFix64 6) (stablecoin_nav : UFix64 9)
    (levercoin_supply : UFix64 6) : Option (UFix64 9) :=
  let tvl := total_sol.bits * price.upper.bits / pow10 8
  let liability := stablecoin_supply.bits * stablecoin_nav.bits / pow10 6
  if tvl < U64MOD ∧ liability < U64MOD ∧ liability ≤ tvl ∧
      levercoin_supply.bits ≠ 0 then
    let bits := (tvl - liability) * pow10 6 / levercoin_supply.bits
    if bits < U64MOD then some ⟨bits⟩ else none
  else none

/-- Modelled from the spec: levercoin redeem NAV is the same equity over
supply quotient taken at the oracle lower bound
(`exchange_math.rs` is not available). -/
def next_levercoin_redeem_nav (total_sol : UFix64 9) (price : PriceRange 8)
    (stablecoin_supply : UFix64 6) (stablecoin_nav : UFix64 9)
    (levercoin_supply : UFix64 6) : Option (UFix64 9) :=
  let tvl := total_sol.bits * price.lower.bits / pow10 8
  let liability := stablecoin_supply.bits * stablecoin_nav.bits / pow10 6
  if tvl < U64MOD ∧ liability < U64MOD ∧ liability ≤ tvl ∧
      levercoin_supply.bits ≠ 0 then
    let bits := (tvl - liability) * pow10 6 / levercoin_supply.bits
    if bits < U64MOD then some ⟨bits⟩ else none
  else none

/-- Fee and remainder split of an input amount at scale `e`
(`FeeExtract<Exp>` of `fee_controller.rs`). -/
structure FeeExtract (e : Nat) where
  fees_extracted : UFix64 e
  amount_remaining : UFix64 e
deriving DecidableEq, Repr

/-- Modelled from the spec: `FeeExtract::new(fee, amount)` splits `amount`
into a floor-rounded fee part `amount × fee` and the exact remainder, so
that the parts sum to the input; a fee rate above 1.0 is rejected
(`fee_controller.rs` is not available).  Fee rates carry 4 decimals. -/
def FeeExtract.new {e : Nat} (fee : UFix64 4) (amount : UFix64 e) :
    Except CoreError (FeeExtract e) :=
  if fee.bits ≤ pow10 4 then
    let f := amount.bits * fee.bits / pow10 4
    .ok ⟨⟨f⟩, ⟨amount.bits - f⟩⟩
  else .error .ArithmeticOverflow

/-- Modelled from the spec: per-operation stablecoin fee table indexed by
stability mode (`fee_controller.rs` is not available). -/
structure StablecoinFees where
  mint_fee : StabilityMode → Except CoreError (UFix64 4)
  redeem_fee : StabilityMode → Except CoreError (UFix64 4)

/-- Modelled from the spec: per-operation levercoin fee table indexed by
stability mode (`fee_controller.rs` is not available). -/
structure LevercoinFees where
  mint_fee : StabilityMode → Except CoreError (UFix64 4)
  redeem_fee : StabilityMode → Except CoreError (UFix64 4)
  swap_to_stablecoin_fee : StabilityMode → Except CoreError (UFix64 4)
  swap_from_stablecoin_fee : StabilityMode → Except CoreError (UFix64 4)

/-- Modelled from the spec: the Solana clock exposes the current epoch and
unix timestamp consumed by the core (`solana_clock.rs` is not available). -/
structure Clock where
  epoch : Nat
  unix_timestamp : Int
deriving DecidableEq, Repr

/-- Modelled from the spec: the aggregate collateral cache entry is an
externally computed total tagged with the epoch it was computed in
(`total_sol_cache.rs` is not available). -/
structure TotalSolCache where
  value : UFix64 9
  epoch : Nat
deriving DecidableEq, Repr

/-- Modelled from the spec: `get_validated(current_epoch)` returns the
cached value only if its tagged epoch equals `current_epoch`, otherwise it
fails with a staleness error (`total_sol_cache.rs` is not available). -/
def TotalSolCache.get_validated (c : TotalSolCache) (current_epoch : Nat) :
    Except CoreError (UFix64 9) :=
  if c.epoch = current_epoch then .ok c.value
  else .error .StaleCollateralCache

/-- Modelled from the spec: oracle validation configuration, a maximum
staleness in seconds and a maximum confidence tolerance as an 8-decimal
fraction of the price (`pyth.rs` is not available). -/
structure OracleConfig where
  max_staleness_secs : Nat
  conf_tolerance : UFix64 8
deriving DecidableEq, Repr

/-- Modelled from the spec: the fields of a raw oracle price update
consumed by validation (price, confidence, publish time). -/
structure PriceUpdateV2 where
  price : Nat
  conf : Nat
  publish_time : Int
deriving DecidableEq, Repr

/-- Modelled from the spec: `query_pyth_price` rejects an update older than
the staleness window or with a confidence interval exceeding the tolerance
relative to the price, and otherwise yields the confidence interval as a
`PriceRange` (`pyth.rs` is not available). -/
def query_pyth_price (clock : Clock) (feed : PriceUpdateV2)
    (config : OracleConfig) : Except CoreError (PriceRange 8) :=
  if clock.unix_timestamp - feed.publish_time > (config.max_staleness_secs : Int) then
    .error .StalePrice
  else if feed.conf * pow10 8 > config.conf_tolerance.bits * feed.price then
    .error .PriceConfidence
  else
    .ok ⟨⟨feed.price - feed.conf⟩, ⟨feed.price + feed.conf⟩⟩

/-- Modelled from the spec: per-epoch LST/SOL price record; the price is
only served for the epoch it was computed in (`lst_sol_price.rs` is not
available). -/
structure LstSolPrice where
  price_sol : UFix64 9
  epoch : Nat
deriving DecidableEq, Repr

/-- Modelled from the spec: serves the cached LST/SOL price only for the
current epoch (`lst_sol_price.rs` is not available). -/
def LstSolPrice.get_epoch_price (p : LstSolPrice) (current_epoch : Nat) :
    Except CoreError (UFix64 9) :=
  if p.epoch = current_epoch then .ok p.price_sol
  else .error .StalePrice

/-- Modelled from the spec: converts an LST amount into SOL through the
per-epoch LST/SOL price, with checked arithmetic
(`lst_sol_price.rs` is not available). -/
def LstSolPrice.convert_sol (p : LstSolPrice) (amount_lst : UFix64 9)
    (current_epoch : Nat) : Except CoreError (UFix64 9) := do
  let price ← p.get_epoch_price current_epoch
  let bits := amount_lst.bits * price.bits / pow10 9
  if bits < U64MOD then .ok ⟨bits⟩ else .error .ArithmeticOverflow

/-- Modelled from the spec: a stateless converter composed of the oracle
price range and the LST/SOL price (`conversion.rs` is not available). -/
structure Conversion where
  sol_usd_price : PriceRange 8
  lst_sol : UFix64 9
deriving DecidableEq, Repr

/-- `Conversion::new` (`conversion.rs` is not available). -/
def Conversion.new (sol_usd_price : PriceRange 8) (lst_sol : UFix64 9) :
    Conversion :=
  ⟨sol_usd_price, lst_sol⟩

/-- Modelled from the spec: converts an LST amount to token units through
the given NAV (USD value of the LST divided by the NAV), floor-rounded and
checked; the spec leaves the price-bound choice open, the lower bound is
used here (`conversion.rs` is not available). -/
def Conversion.lst_to_token (c : Conversion) (amount_lst : UFix64 9)
    (nav : UFix64 9) : Except CoreError (UFix64 6) :=
  if nav.bits = 0 then .error .DivisionByZero
  else
    let bits := amount_lst.bits * c.lst_sol.bits * c.sol_usd_price.lower.bits /
      (pow10 11 * nav.bits)
    if bits < U64MOD then .ok ⟨bits⟩ else .error .ArithmeticOverflow

/-- Modelled from the spec: converts a token amount back to LST units
through the given NAV, floor-rounded and checked; the lower price bound is
used, matching `lst_to_token` (`conversion.rs` is not available). -/
def Conversion.token_to_lst (c : Conversion) (amount_token : UFix64 6)
    (nav : UFix64 9) : Except CoreError (UFix64 9) :=
  if c.lst_sol.bits * c.sol_usd_price.lower.bits = 0 then
    .error .DivisionByZero
  else
    let bits := amount_token.bits * nav.bits * pow10 11 /
      (c.lst_sol.bits * c.sol_usd_price.lower.bits)
    if bits < U64MOD then .ok ⟨bits⟩ else .error .ArithmeticOverflow

/-- Modelled from the spec: direct two-token converter built from the
stablecoin NAV and the levercoin NAV range (redeem NAV as lower bound,
mint NAV as upper bound) (`conversion.rs` is not available). -/
structure SwapConversion where
  stablecoin_nav : UFix64 9
  levercoin_nav : PriceRange 9
deriving DecidableEq, Repr

/-- `SwapConversion::new` (`conversion.rs` is not available). -/
def SwapConversion.new (stablecoin_nav : UFix64 9)
    (levercoin_nav : PriceRange 9) : SwapConversion :=
  ⟨stablecoin_nav, levercoin_nav⟩

/-- Modelled from the spec: converts levercoin to stablecoin at the
levercoin redeem NAV (the range lower bound) over the stablecoin NAV
(`conversion.rs` is not available). -/
def SwapConversion.lever_to_stable (c : SwapConversion)
    (amount : UFix64 6) : Except CoreError (UFix64 6) :=
  if c.stablecoin_nav.bits = 0 then .error .DivisionByZero
  else
    let bits := amount.bits * c.levercoin_nav.lower.bits / c.stablecoin_nav.bits
    if bits < U64MOD then .ok ⟨bits⟩ else .error .ArithmeticOverflow

/-- Modelled from the spec: converts stablecoin to levercoin at the
levercoin mint NAV (the range upper bound) under the stablecoin NAV
(`conversion.rs` is not available). -/
def SwapConversion.stable_to_lever (c : SwapConversion)
    (amount : UFix64 6) : Except CoreError (UFix64 6) :=
  if c.levercoin_nav.upper.bits = 0 then .error .DivisionByZero
  else
    let bits := amount.bits * c.stablecoin_nav.bits / c.levercoin_nav.upper.bits
    if bits < U64MOD then .ok ⟨bits⟩ else .error .ArithmeticOverflow

/-- Token mint record exposing its supply (`spl_token_interface`). -/
structure Mint where
  supply : Nat
deriving DecidableEq, Repr

/-- Container for common values needed in an exchange transaction
(`ExchangeContext` of `exchange_context.rs`; the optional levercoin supply
field is renamed `levercoin_supply_opt` to leave room for the accessor of
the same name). -/
structure ExchangeContext where
  clock : Clock
  total_sol : UFix64 9
  sol_usd_price : PriceRange 8
  stablecoin_supply : UFix64 6
  levercoin_supply_opt : Option (UFix64 6)
  collateral_ratio : UFix64 9
  stability_controller : StabilityController
  stability_mode : StabilityMode
  stablecoin_fees : StablecoinFees
  levercoin_fees : LevercoinFees

/-- `ExchangeContext::load`: assembles the immutable per-request snapshot,
validating the collateral cache against the current epoch, validating the
oracle price, reading both supplies and deriving the collateral ratio and
stability mode; any sub-step failure aborts construction. -/
def ExchangeContext.load (clock : Clock) (total_sol_cache : TotalSolCache)
    (stability_controller : StabilityController)
    (oracle_config : OracleConfig) (stablecoin_fees : StablecoinFees)
    (levercoin_fees : LevercoinFees) (sol_usd_pyth_feed : PriceUpdateV2)
    (stablecoin_mint : Mint) (levercoin_mint : Option Mint) :
    Except CoreError ExchangeContext := do
  let total_sol ← total_sol_cache.get_validated clock.epoch
  let sol_usd_price ← query_pyth_price clock sol_usd_pyth_feed oracle_config
  let stablecoin_supply : UFix64 6 := ⟨stablecoin_mint.supply⟩
  let levercoin_supply := levercoin_mint.map (fun m => (⟨m.supply⟩ : UFix64 6))
  let cr ← Hylo.collateral_ratio total_sol sol_usd_price.lower
    stablecoin_supply
  let stability_mode := stability_controller.stability_mode cr
  .ok
    { clock := clock
      total_sol := total_sol
      sol_usd_price := sol_usd_price
      stablecoin_supply := stablecoin_supply
      levercoin_supply_opt := levercoin_supply
      collateral_ratio := cr
      stability_controller := stability_controller
      stability_mode := stability_mode
      stablecoin_fees := stablecoin_fees
      levercoin_fees := levercoin_fees }

/-- `ExchangeContext::total_value_locked`: TVL in USD at 9 decimals, priced
at the oracle lower bound. -/
def ExchangeContext.total_value_locked (ctx : ExchangeContext) :
    Except CoreError (UFix64 9) :=
  Hylo.total_value_locked ctx.total_sol ctx.sol_usd_price.lower

/-- `ExchangeContext::levercoin_supply`: the optional supply, or the
`LevercoinNav` error when no levercoin mint is configured. -/
def ExchangeContext.levercoin_supply (ctx : ExchangeContext) :
    Except CoreError (UFix64 6) :=
  match ctx.levercoin_supply_opt with
  | some s => .ok s
  | none => .error .LevercoinNav

/-- `ExchangeContext::stablecoin_nav`: exactly 1.0 outside depeg, otherwise
the depeg NAV at the oracle lower bound. -/
def ExchangeContext.stablecoin_nav (ctx : ExchangeContext) :
    Except CoreError (UFix64 9) :=
  match ctx.stability_mode with
  | .Depeg =>
    depeg_stablecoin_nav ctx.total_sol ctx.sol_usd_price.lower
      ctx.stablecoin_supply
  | _ => .ok (UFix64.one 9)

/-- `ExchangeContext::levercoin_mint_nav`: the levercoin mint NAV, failing
with `LevercoinNav` when the supply is absent or the computation fails. -/
def ExchangeContext.levercoin_mint_nav (ctx : ExchangeContext) :
    Except CoreError (UFix64 9) := do
  let stablecoin_nav ← ctx.stablecoin_nav
  let levercoin_supply ← ctx.levercoin_supply
  okOr
    (next_levercoin_mint_nav ctx.total_sol ctx.sol_usd_price
      ctx.stablecoin_supply stablecoin_nav levercoin_supply)
    .LevercoinNav

/-- `ExchangeContext::levercoin_redeem_nav`: the levercoin redeem NAV,
failing with `LevercoinNav` when the supply is absent or the computation
fails. -/
def ExchangeContext.levercoin_redeem_nav (ctx : ExchangeContext) :
    Except CoreError (UFix64 9) := do
  let stablecoin_nav ← ctx.stablecoin_nav
  let levercoin_supply ← ctx.levercoin_supply
  okOr
    (next_levercoin_redeem_nav ctx.total_sol ctx.sol_usd_price
      ctx.stablecoin_supply stablecoin_nav levercoin_supply)
    .LevercoinNav

/-- `ExchangeContext::projected_stability_mode`: recomputes the collateral
ratio on the projected totals and translates it to a stability mode. -/
def ExchangeContext.projected_stability_mode (ctx : ExchangeContext)
    (new_total_sol : UFix64 9) (new_total_stablecoin : UFix64 6) :
    Except CoreError StabilityMode := do
  let projected_cr ← Hylo.collateral_ratio new_total_sol
    ctx.sol_usd_price.lower new_total_stablecoin
  .ok (ctx.stability_controller.stability_mode projected_cr)

/-- `ExchangeContext::select_stability_mode_for_fees`: returns the current
mode when the projected mode is strictly healthier, else the projected
mode. -/
def ExchangeContext.select_stability_mode_for_fees (ctx : ExchangeContext)
    (projected_stability_mode : StabilityMode) : StabilityMode :=
  if projected_stability_mode.ord < ctx.stability_mode.ord then
    ctx.stability_mode
  else
    projected_stability_mode

/-- `ExchangeContext::token_conversion`: the LST/token converter for the
current epoch. -/
def ExchangeContext.token_conversion (ctx : ExchangeContext)
    (lst_sol_price : LstSolPrice) : Except CoreError Conversion := do
  let lst_sol ← lst_sol_price.get_epoch_price ctx.clock.epoch
  .ok (Conversion.new ctx.sol_usd_price lst_sol)

/-- `ExchangeContext::stablecoin_mint_fee`: projects the post-mint totals,
selects the fee mode and extracts the mint fee from the input LST. -/
def ExchangeContext.stablecoin_mint_fee (ctx : ExchangeContext)
    (lst_sol_price : LstSolPrice) (amount_lst : UFix64 9) :
    Except CoreError (FeeExtract 9) := do
  let new_sol ← lst_sol_price.convert_sol amount_lst ctx.clock.epoch
  let new_total_sol ← okOr (ctx.total_sol.checked_add new_sol)
    .DestinationFeeSol
  let conv ← ctx.token_conversion lst_sol_price
  let nav ← ctx.stablecoin_nav
  let minted ← conv.lst_to_token amount_lst nav
  let new_total_stablecoin ← okOr (minted.checked_add ctx.stablecoin_supply)
    .DestinationFeeStablecoin
  let projected ← ctx.projected_stability_mode new_total_sol
    new_total_stablecoin
  let mode := ctx.select_stability_mode_for_fees projected
  let fee ← ctx.stablecoin_fees.mint_fee mode
  FeeExtract.new fee amount_lst

/-- `ExchangeContext::stablecoin_redeem_fee`: projects the post-redeem
totals, selects the fee mode and extracts the redeem fee from the input
LST amount. -/
def ExchangeContext.stablecoin_redeem_fee (ctx : ExchangeContext)
    (lst_sol_price : LstSolPrice) (amount_lst : UFix64 9) :
    Except CoreError (FeeExtract 9) := do
  let sol_rm ← lst_sol_price.convert_sol amount_lst ctx.clock.epoch
  let new_total_sol ← okOr (ctx.total_sol.checked_sub sol_rm)
    .DestinationFeeSol
  let conv ← ctx.token_conversion lst_sol_price
  let nav ← ctx.stablecoin_nav
  let stablecoin_redeemed ← conv.lst_to_token amount_lst nav
  let new_total_stablecoin ←
    okOr (ctx.stablecoin_supply.checked_sub stablecoin_redeemed)
      .DestinationFeeStablecoin
  let projected ← ctx.projected_stability_mode new_total_sol
    new_total_stablecoin
  let mode := ctx.select_stability_mode_for_fees projected
  let fee ← ctx.stablecoin_fees.redeem_fee mode
  FeeExtract.new fee amount_lst

/-- `ExchangeContext::levercoin_mint_fee`: projects the post-mint SOL total
and extracts the levercoin mint fee from the input LST. -/
def ExchangeContext.levercoin_mint_fee (ctx : ExchangeContext)
    (lst_sol_price : LstSolPrice) (amount_lst : UFix64 9) :
    Except CoreError (FeeExtract 9) := do
  let new_sol ← lst_sol_price.convert_sol amount_lst ctx.clock.epoch
  let new_total_sol ← okOr (ctx.total_sol.checked_add new_sol)
    .DestinationFeeSol
  let projected ← ctx.projected_stability_mode new_total_sol
    ctx.stablecoin_supply
  let mode := ctx.select_stability_mode_for_fees projected
  let fee ← ctx.levercoin_fees.mint_fee mode
  FeeExtract.new fee amount_lst

/-- `ExchangeContext::levercoin_redeem_fee`: projects the post-redeem SOL
total and extracts the levercoin redeem fee from the input LST amount. -/
def ExchangeContext.levercoin_redeem_fee (ctx : ExchangeContext)
    (lst_sol_price : LstSolPrice) (amount_lst : UFix64 9) :
    Except CoreError (FeeExtract 9) := do
  let sol_rm ← lst_sol_price.convert_sol amount_lst ctx.clock.epoch
  let new_total_sol ← okOr (ctx.total_sol.checked_sub sol_rm)
    .DestinationFeeSol
  let projected ← ctx.projected_stability_mode new_total_sol
    ctx.stablecoin_supply
  let mode := ctx.select_stability_mode_for_fees projected
  let fee ← ctx.levercoin_fees.redeem_fee mode
  FeeExtract.new fee amount_lst

/-- `ExchangeContext::levercoin_to_stablecoin_fee`: projects the post-swap
stablecoin total and extracts the swap fee from the stablecoin amount. -/
def ExchangeContext.levercoin_to_stablecoin_fee (ctx : ExchangeContext)
    (amount_stablecoin : UFix64 6) : Except CoreError (FeeExtract 6) := do
  let new_total_stablecoin ←
    okOr (ctx.stablecoin_supply.checked_add amount_stablecoin)
      .DestinationFeeStablecoin
  let projected ← ctx.projected_stability_mode ctx.total_sol
    new_total_stablecoin
  let mode := ctx.select_stability_mode_for_fees projected
  let fee ← ctx.levercoin_fees.swap_to_stablecoin_fee mode
  FeeExtract.new fee amount_stablecoin

/-- `ExchangeContext::stablecoin_to_levercoin_fee`: projects the post-swap
stablecoin total and extracts the swap fee from the input stablecoin. -/
def ExchangeContext.stablecoin_to_levercoin_fee (ctx : ExchangeContext)
    (amount_stablecoin : UFix64 6) : Except CoreError (FeeExtract 6) := do
  let new_total_stablecoin ←
    okOr (ctx.stablecoin_supply.checked_sub amount_stablecoin)
      .DestinationFeeStablecoin
  let projected ← ctx.projected_stability_mode ctx.total_sol
    new_total_stablecoin
  let mode := ctx.select_stability_mode_for_fees projected
  let fee ← ctx.levercoin_fees.swap_from_stablecoin_fee mode
  FeeExtract.new fee amount_stablecoin

/-- `ExchangeContext::max_mintable_stablecoin`: the mint ceiling at the
minimum stability threshold and oracle upper bound. -/
def ExchangeContext.max_mintable_stablecoin (ctx : ExchangeContext) :
    Except CoreError (UFix64 6) :=
  Hylo.max_mintable_stablecoin ctx.stability_controller.min_stability_threshold
    ctx.total_sol ctx.sol_usd_price.upper ctx.stablecoin_supply

/-- `ExchangeContext::max_swappable_stablecoin`: the swap ceiling at the
minimum stability threshold. -/
def ExchangeContext.max_swappable_stablecoin (ctx : ExchangeContext) :
    Except CoreError (UFix64 6) := do
  let tvl ← ctx.total_value_locked
  Hylo.max_swappable_stablecoin
    ctx.stability_controller.min_stability_threshold tvl
    ctx.stablecoin_supply

/-- `ExchangeContext::validate_stablecoin_swap_amount`: passes the
requested amount through when it does not exceed the swap ceiling, else
fails with `RequestedStablecoinOverMaxMintable`. -/
def ExchangeContext.validate_stablecoin_swap_amount (ctx : ExchangeContext)
    (requested_amount : UFix64 6) : Except CoreError (UFix64 6) := do
  let max_swappable ← ctx.max_swappable_stablecoin
  if requested_amount.bits ≤ max_swappable.bits then .ok requested_amount
  else .error .RequestedStablecoinOverMaxMintable

/-- `ExchangeContext::validate_stablecoin_amount`: passes the requested
amount through when it does not exceed the mint ceiling, else fails with
`RequestedStablecoinOverMaxMintable`. -/
def ExchangeContext.validate_stablecoin_amount (ctx : ExchangeContext)
    (requested_amount : UFix64 6) : Except CoreError (UFix64 6) := do
  let max ← ctx.max_mintable_stablecoin
  if requested_amount.bits ≤ max.bits then .ok requested_amount
  else .error .RequestedStablecoinOverMaxMintable

/-- `ExchangeContext::swap_conversion`: the direct two-token converter with
the levercoin NAV range `(redeem, mint)`. -/
def ExchangeContext.swap_conversion (ctx : ExchangeContext) :
    Except CoreError SwapConversion := do
  let redeem_nav ← ctx.levercoin_redeem_nav
  let mint_nav ← ctx.levercoin_mint_nav
  let stablecoin_nav ← ctx.stablecoin_nav
  .ok (SwapConversion.new stablecoin_nav ⟨redeem_nav, mint_nav⟩)

/-- Token-account record exposing its balance (`spl_token_interface`). -/
structure TokenAccount where
  amount : Nat
deriving DecidableEq, Repr

/-- Stability-pool configuration holding the withdrawal fee rate
(`PoolConfig` of the stability-pool program). -/
structure PoolConfig where
  withdrawal_fee : UFix64 4
deriving DecidableEq, Repr

/-- Mint addresses are modelled as distinct natural-number identifiers
(`tokens.rs` declares them as distinct public keys). -/
def HYUSD : Nat := 0

/-- The sHYUSD pool-share mint identifier. -/
def SHYUSD : Nat := 1

/-- The xSOL levercoin mint identifier. -/
def XSOL : Nat := 2

/-- The jitoSOL LST mint identifier. -/
def JITOSOL : Nat := 3

/-- Header account of a registered LST: its mint and LST/SOL price
(`LstHeader` of the exchange program). -/
structure LstHeader where
  mint : Nat
  price_sol : LstSolPrice
deriving DecidableEq, Repr

/-- Jupiter quote shape: amounts in raw bits, the fee denomination mint and
the fee percentage bits (`jupiter_amm_interface::Quote`, with the decimal
fee percentage carried as its 6-decimal bits). -/
structure Quote where
  in_amount : Nat
  out_amount : Nat
  fee_amount : Nat
  fee_mint : Nat
  fee_pct : Nat
deriving DecidableEq, Repr

/-- Failures of the quote layer: a propagated core error or one of the
ad-hoc errors raised in `quote.rs`. -/
inductive QuoteError where
  | core (e : CoreError)
  | xsolInPool
  | feeOverflow
  | outputOverflow
  | feePct
deriving DecidableEq, Repr

/-- Lifts a core result into the quote layer, as the `?` conversion into
`anyhow::Result` does. -/
def liftE {α : Type} : Except CoreError α → Except QuoteError α
  | .ok a => .ok a
  | .error e => .error (.core e)

/-- `fee_pct_decimal`: the fee fraction `fees_extracted / total_in` as
fixed-point bits at the common scale, failing on a zero denominator or
overflow (`util.rs`, via `mul_div_floor`). -/
def fee_pct_decimal {e : Nat} (fees_extracted total_in : UFix64 e) :
    Except QuoteError Nat :=
  if total_in.bits = 0 then .error .feePct
  else
    let bits := fees_extracted.bits * pow10 e / total_in.bits
    if bits < U64MOD then .ok bits else .error .feePct

/-- Modelled from the spec: pro-rata withdrawal
`shares_in × pool_balance / share_supply`, checked
(`stability_pool_math.rs` is not available). -/
def amount_token_to_withdraw (amount_lp : UFix64 6) (lp_supply : UFix64 6)
    (token_in_pool : UFix64 6) : Except CoreError (UFix64 6) :=
  if lp_supply.bits = 0 then .error .DivisionByZero
  else
    let bits := amount_lp.bits * token_in_pool.bits / lp_supply.bits
    if bits < U64MOD then .ok ⟨bits⟩ else .error .ArithmeticOverflow

/-- `hyusd_mint` of `quote.rs`: extracts the mint fee from the input LST,
converts the remainder at the stablecoin NAV, validates it against the mint
ceiling and quotes the fee in the LST. -/
def hyusd_mint (ctx : ExchangeContext) (lst_header : LstHeader)
    (in_amount : UFix64 9) : Except QuoteError Quote := do
  let lst_price := lst_header.price_sol
  let fx ← liftE (ctx.stablecoin_mint_fee lst_price in_amount)
  let stablecoin_nav ← liftE ctx.stablecoin_nav
  let conv ← liftE (ctx.token_conversion lst_price)
  let converted ← liftE (conv.lst_to_token fx.amount_remaining stablecoin_nav)
  let hyusd_out ← liftE (ctx.validate_stablecoin_amount converted)
  let pct ← fee_pct_decimal fx.fees_extracted in_amount
  .ok
    { in_amount := in_amount.bits
      out_amount := hyusd_out.bits
      fee_amount := fx.fees_extracted.bits
      fee_mint := lst_header.mint
      fee_pct := pct }

/-- `hyusd_redeem` of `quote.rs`: converts the full input stablecoin to LST
at the stablecoin NAV, then extracts the redeem fee from the converted LST
amount and quotes the fee in the LST. -/
def hyusd_redeem (ctx : ExchangeContext) (lst_header : LstHeader)
    (in_amount : UFix64 6) : Except QuoteError Quote := do
  let lst_price := lst_header.price_sol
  let stablecoin_nav ← liftE ctx.stablecoin_nav
  let conv ← liftE (ctx.token_conversion lst_price)
  let lst_out ← liftE (conv.token_to_lst in_amount stablecoin_nav)
  let fx ← liftE (ctx.stablecoin_redeem_fee lst_price lst_out)
  let pct ← fee_pct_decimal fx.fees_extracted lst_out
  .ok
    { in_amount := in_amount.bits
      out_amount := fx.amount_remaining.bits
      fee_amount := fx.fees_extracted.bits
      fee_mint := lst_header.mint
      fee_pct := pct }

/-- `xsol_mint` of `quote.rs`: extracts the levercoin mint fee from the
input LST and converts the remainder at the levercoin mint NAV. -/
def xsol_mint (ctx : ExchangeContext) (lst_header : LstHeader)
    (in_amount : UFix64 9) : Except QuoteError Quote := do
  let lst_price := lst_header.price_sol
  let fx ← liftE (ctx.levercoin_mint_fee lst_price in_amount)
  let levercoin_mint_nav ← liftE ctx.levercoin_mint_nav
  let conv ← liftE (ctx.token_conversion lst_price)
  let xsol_out ← liftE (conv.lst_to_token fx.amount_remaining levercoin_mint_nav)
  let pct ← fee_pct_decimal fx.fees_extracted in_amount
  .ok
    { in_amount := in_amount.bits
      out_amount := xsol_out.bits
      fee_amount := fx.fees_extracted.bits
      fee_mint := lst_header.mint
      fee_pct := pct }

/-- `xsol_redeem` of `quote.rs`: converts the full input levercoin to LST
at the levercoin redeem NAV, then extracts the redeem fee from the
converted LST amount. -/
def xsol_redeem (ctx : ExchangeContext) (lst_header : LstHeader)
    (in_amount : UFix64 6) : Except QuoteError Quote := do
  let lst_price := lst_header.price_sol
  let xsol_nav ← liftE ctx.levercoin_redeem_nav
  let conv ← liftE (ctx.token_conversion lst_price)
  let lst_out ← liftE (conv.token_to_lst in_amount xsol_nav)
  let fx ← liftE (ctx.levercoin_redeem_fee lst_price lst_out)
  let pct ← fee_pct_decimal fx.fees_extracted lst_out
  .ok
    { in_amount := in_amount.bits
      out_amount := fx.amount_remaining.bits
      fee_amount := fx.fees_extracted.bits
      fee_mint := lst_header.mint
      fee_pct := pct }

/-- `hyusd_xsol_swap` of `quote.rs`: extracts the swap fee from the input
stablecoin and converts the remainder to levercoin. -/
def hyusd_xsol_swap (ctx : ExchangeContext) (in_amount : UFix64 6) :
    Except QuoteError Quote := do
  let fx ← liftE (ctx.stablecoin_to_levercoin_fee in_amount)
  let sc ← liftE ctx.swap_conversion
  let xsol_out ← liftE (sc.stable_to_lever fx.amount_remaining)
  let pct ← fee_pct_decimal fx.fees_extracted in_amount
  .ok
    { in_amount := in_amount.bits
      out_amount := xsol_out.bits
      fee_amount := fx.fees_extracted.bits
      fee_mint := HYUSD
      fee_pct := pct }

/-- `xsol_hyusd_swap` of `quote.rs`: converts the full input levercoin to
stablecoin, validates the converted amount against the swap ceiling, then
extracts the swap fee from the converted stablecoin amount. -/
def xsol_hyusd_swap (ctx : ExchangeContext) (in_amount : UFix64 6) :
    Except QuoteError Quote := do
  let sc ← liftE ctx.swap_conversion
  let converted ← liftE (sc.lever_to_stable in_amount)
  let hyusd_total ← liftE (ctx.validate_stablecoin_swap_amount converted)
  let fx ← liftE (ctx.levercoin_to_stablecoin_fee hyusd_total)
  let pct ← fee_pct_decimal fx.fees_extracted hyusd_total
  .ok
    { in_amount := in_amount.bits
      out_amount := fx.amount_remaining.bits
      fee_amount := fx.fees_extracted.bits
      fee_mint := HYUSD
      fee_pct := pct }

/-- `shyusd_redeem` of `quote.rs`: only when the xSOL pool balance is zero,
withdraws the pro-rata stablecoin share, extracts the configured withdrawal
fee from it and quotes the remainder; otherwise fails. -/
def shyusd_redeem (shyusd_mint : Mint) (hyusd_pool : TokenAccount)
    (xsol_pool : TokenAccount) (pool_config : PoolConfig)
    (shyusd_in : UFix64 6) : Except QuoteError Quote :=
  if xsol_pool.amount = 0 then do
    let stablecoin_in_pool : UFix64 6 := ⟨hyusd_pool.amount⟩
    let stablecoin_to_withdraw ← liftE
      (amount_token_to_withdraw shyusd_in ⟨shyusd_mint.supply⟩
        stablecoin_in_pool)
    let withdrawal_fee : UFix64 4 := pool_config.withdrawal_fee
    let fx ← liftE (FeeExtract.new withdrawal_fee stablecoin_to_withdraw)
    let pct ← fee_pct_decimal fx.fees_extracted stablecoin_to_withdraw
    .ok
      { in_amount := shyusd_in.bits
        out_amount := fx.amount_remaining.bits
        fee_amount := fx.fees_extracted.bits
        fee_mint := HYUSD
        fee_pct := pct }
  else .error .xsolInPool

/-! ## Proof infrastructure -/

/-- Inversion of a successful `Except` bind. -/
theorem exceptBind_ok_iff {ε α β : Type} (x : Except ε α)
    (f : α → Except ε β) (b : β) :
    x >>= f = Except.ok b ↔ ∃ a, x = Except.ok a ∧ f a = Except.ok b := by
  cases x <;> simp [Bind.bind, Except.bind]

/-- A lifted core result is ok iff the core result is. -/
theorem liftE_ok_iff {α : Type} (x : Except CoreError α) (a : α) :
    liftE x = Except.ok a ↔ x = Except.ok a := by
  cases x <;> simp [liftE]

/-! ## Concrete fixtures

A reference scenario close to the one in the specification: one million
SOL of collateral at 20 USD, fifteen million stablecoin, thresholds
`(1.5, 1.2)`, hence collateral ratio about 1.333 and mode `Decay`.  All
fee rates are one percent except the pool withdrawal fee. -/

/-- Flat one-percent stablecoin fee table used by the fixtures. -/
def demoStablecoinFees : StablecoinFees :=
  { mint_fee := fun _ => .ok ⟨100⟩
    redeem_fee := fun _ => .ok ⟨100⟩ }

/-- Flat one-percent levercoin fee table used by the fixtures. -/
def demoLevercoinFees : LevercoinFees :=
  { mint_fee := fun _ => .ok ⟨100⟩
    redeem_fee := fun _ => .ok ⟨100⟩
    swap_to_stablecoin_fee := fun _ => .ok ⟨100⟩
    swap_from_stablecoin_fee := fun _ => .ok ⟨100⟩ }

/-- Reference stability controller with thresholds 1.5 and 1.2. -/
def demoController : StabilityController :=
  { threshold_1 := ⟨1500000000⟩, threshold_2 := ⟨1200000000⟩ }

/-- Reference exchange context in `Decay` mode. -/
def demoCtx : ExchangeContext :=
  { clock := { epoch := 5, unix_timestamp := 1000 }
    total_sol := ⟨1000000000000000⟩
    sol_usd_price := ⟨⟨2000000000⟩, ⟨2000000000⟩⟩
    stablecoin_supply := ⟨15000000000000⟩
    levercoin_supply_opt := some ⟨1000000000000⟩
    collateral_ratio := ⟨1333333333⟩
    stability_controller := demoController
    stability_mode := .Decay
    stablecoin_fees := demoStablecoinFees
    levercoin_fees := demoLevercoinFees }

/-- One-to-one LST/SOL price for the current fixture epoch. -/
def demoLstPrice : LstSolPrice := { price_sol := ⟨1000000000⟩, epoch := 5 }

/-- Reference LST header for the jitoSOL mint. -/
def demoLstHeader : LstHeader := { mint := JITOSOL, price_sol := demoLstPrice }

/-- Reference context in `Depeg` mode: thirty million stablecoin against
the same collateral, ratio about 0.667. -/
def demoCtxDepeg : ExchangeContext :=
  { demoCtx with
    stablecoin_supply := ⟨30000000000000⟩
    collateral_ratio := ⟨666666666⟩
    stability_mode := .Depeg }

/-- Every successful `FeeExtract::new` splits its input exactly: the fee
part is a floor division of the input and the remainder is the exact
complement. -/
theorem feeExtract_new_sum_aux {e : Nat} (fee : UFix64 4)
    (amount : UFix64 e) (fx : FeeExtract e)
    (h : FeeExtract.new fee amount = .ok fx) :
    fx.fees_extracted.bits + fx.amount_remaining.bits = amount.bits := by
  unfold FeeExtract.new at h
  by_cases hf : fee.bits ≤ pow10 4
  · rw [if_pos hf] at h
    simp only [Except.ok.injEq] at h
    have h1 : amount.bits * fee.bits ≤ amount.bits * pow10 4 :=
      Nat.mul_le_mul_left amount.bits hf
    have h2 : amount.bits * fee.bits / pow10 4 ≤
        amount.bits * pow10 4 / pow10 4 := Nat.div_le_div_right h1
    have h3 : amount.bits * pow10 4 / pow10 4 = amount.bits :=
      Nat.mul_div_cancel amount.bits (by norm_num [pow10])
    rw [← h]
    simp only []
    omega
  · rw [if_neg hf] at h
    exact absurd h (by simp)

/-- A successful mint-ceiling validation returns the requested amount
unchanged. -/
theorem validate_amount_ok_id_aux (ctx : ExchangeContext) (a b : UFix64 6)
    (h : ctx.validate_stablecoin_amount a = .ok b) : b = a := by
  unfold ExchangeContext.validate_stablecoin_amount at h
  simp only [exceptBind_ok_iff] at h
  obtain ⟨mx, -, h⟩ := h
  by_cases hle : a.bits ≤ mx.bits
  · rw [if_pos hle] at h
    simpa using h.symm
  · rw [if_neg hle] at h
    exact absurd h (by simp)

/-- A successful swap-ceiling validation returns the requested amount
unchanged. -/
theorem validate_swap_ok_id_aux (ctx : ExchangeContext) (a b : UFix64 6)
    (h : ctx.validate_stablecoin_swap_amount a = .ok b) : b = a := by
  unfold ExchangeContext.validate_stablecoin_swap_amount at h
  simp only [exceptBind_ok_iff] at h
  obtain ⟨mx, -, h⟩ := h
  by_cases hle : a.bits ≤ mx.bits
  · rw [if_pos hle] at h
    simpa using h.symm
  · rw [if_neg hle] at h
    exact absurd h (by simp)

/-- A successful `stablecoin_mint_fee` splits its input LST exactly. -/
theorem stablecoin_mint_fee_sum_aux (ctx : ExchangeContext)
    (lst : LstSolPrice) (a : UFix64 9) (fx : FeeExtract 9)
    (h : ctx.stablecoin_mint_fee lst a = .ok fx) :
    fx.fees_extracted.bits + fx.amount_remaining.bits = a.bits := by
  unfold ExchangeContext.stablecoin_mint_fee at h
  simp only [exceptBind_ok_iff] at h
  obtain ⟨_, -, _, -, _, -, _, -, _, -, _, -, _, -, _, -, h⟩ := h
  exact feeExtract_new_sum_aux _ _ _ h

/-- A successful `stablecoin_redeem_fee` splits its input LST exactly. -/
theorem stablecoin_redeem_fee_sum_aux (ctx : ExchangeContext)
    (lst : LstSolPrice) (a : UFix64 9) (fx : FeeExtract 9)
    (h : ctx.stablecoin_redeem_fee lst a = .ok fx) :
    fx.fees_extracted.bits + fx.amount_remaining.bits = a.bits := by
  unfold ExchangeContext.stablecoin_redeem_fee at h
  simp only [exceptBind_ok_iff] at h
  obtain ⟨_, -, _, -, _, -, _, -, _, -, _, -, _, -, _, -, h⟩ := h
  exact feeExtract_new_sum_aux _ _ _ h

/-- A successful `levercoin_mint_fee` splits its input LST exactly. -/
theorem levercoin_mint_fee_sum_aux (ctx : ExchangeContext)
    (lst : LstSolPrice) (a : UFix64 9) (fx : FeeExtract 9)
    (h : ctx.levercoin_mint_fee lst a = .ok fx) :
    fx.fees_extracted.bits + fx.amount_remaining.bits = a.bits := by
  unfold ExchangeContext.levercoin_mint_fee at h
  simp only [exceptBind_ok_iff] at h
  obtain ⟨_, -, _, -, _, -, _, -, h⟩ := h
  exact feeExtract_new_sum_aux _ _ _ h

/-- A successful `levercoin_redeem_fee` splits its input LST exactly. -/
theorem levercoin_redeem_fee_sum_aux (ctx : ExchangeContext)
    (lst : LstSolPrice) (a : UFix64 9) (fx : FeeExtract 9)
    (h : ctx.levercoin_redeem_fee lst a = .ok fx) :
    fx.fees_extracted.bits + fx.amount_remaining.bits = a.bits := by
  unfold ExchangeContext.levercoin_redeem_fee at h
  simp only [exceptBind_ok_iff] at h
  obtain ⟨_, -, _, -, _, -, _, -, h⟩ := h
  exact feeExtract_new_sum_aux _ _ _ h

/-- A successful `stablecoin_to_levercoin_fee` splits its input exactly. -/
theorem stablecoin_to_levercoin_fee_sum_aux (ctx : ExchangeContext)
    (a : UFix64 6) (fx : FeeExtract 6)
    (h : ctx.stablecoin_to_levercoin_fee a = .ok fx) :
    fx.fees_extracted.bits + fx.amount_remaining.bits = a.bits := by
  unfold ExchangeContext.stablecoin_to_levercoin_fee at h
  simp only [exceptBind_ok_iff] at h
  obtain ⟨_, -, _, -, _, -, h⟩ := h
  exact feeExtract_new_sum_aux _ _ _ h

/-- A successful `levercoin_to_stablecoin_fee` splits its input exactly. -/
theorem levercoin_to_stablecoin_fee_sum_aux (ctx : ExchangeContext)
    (a : UFix64 6) (fx : FeeExtract 6)
    (h : ctx.levercoin_to_stablecoin_fee a = .ok fx) :
    fx.fees_extracted.bits + fx.amount_remaining.bits = a.bits := by
  unfold ExchangeContext.levercoin_to_stablecoin_fee at h
  simp only [exceptBind_ok_iff] at h
  obtain ⟨_, -, _, -, _, -, h⟩ := h
  exact feeExtract_new_sum_aux _ _ _ h

/-! ## Claim theorems -/

/-- Claim C1: `select_stability_mode_for_fees` returns the current mode
when the projected mode is strictly healthier (strictly lower ordinal)
than the current mode and the projected mode otherwise; equivalently it
always returns the worse of the two modes under Stable < Decay < Depeg. -/
theorem select_stability_mode_for_fees_picks_worse (ctx : ExchangeContext)
    (projected : StabilityMode) :
    ctx.select_stability_mode_for_fees projected =
      (if projected.ord < ctx.stability_mode.ord then ctx.stability_mode
       else projected) ∧
    (ctx.select_stability_mode_for_fees projected).ord =
      Nat.max ctx.stability_mode.ord projected.ord ∧
    (ctx.select_stability_mode_for_fees projected = ctx.stability_mode ∨
      ctx.select_stability_mode_for_fees projected = projected) := by
  unfold ExchangeContext.select_stability_mode_for_fees
  cases projected <;> cases h : ctx.stability_mode <;>
    simp [StabilityMode.ord]

/-- Claim C5: `stability_mode` classifies a ratio as `Stable` iff it is at
least `threshold_1`, `Decay` iff it lies in `[threshold_2, threshold_1)`,
`Depeg` iff it is below `threshold_2` — both boundaries land in the
healthier adjoining mode — and the mode ordinal is monotone non-decreasing
in stress as the ratio decreases. -/
theorem stability_mode_threshold_classification (c : StabilityController)
    (r r2 : UFix64 9) (hc : c.threshold_2.bits < c.threshold_1.bits) :
    (c.stability_mode r = .Stable ↔ c.threshold_1.bits ≤ r.bits) ∧
    (c.stability_mode r = .Decay ↔
      c.threshold_2.bits ≤ r.bits ∧ r.bits < c.threshold_1.bits) ∧
    (c.stability_mode r = .Depeg ↔ r.bits < c.threshold_2.bits) ∧
    (r.bits ≤ r2.bits →
      (c.stability_mode r2).ord ≤ (c.stability_mode r).ord) := by
  unfold StabilityController.stability_mode
  refine ⟨?_, ?_, ?_, fun hle => ?_⟩ <;> split_ifs <;>
    simp [StabilityMode.ord] <;> omega

/-- Claim C5 witness: the reference controller classifies 1.6, 1.3 and 1.1
as Stable, Decay and Depeg, and the ordinal is monotone across 1.3 and
1.6. -/
theorem stability_mode_threshold_classification_witness :
    demoController.stability_mode ⟨1600000000⟩ = .Stable ∧
    demoController.stability_mode ⟨1300000000⟩ = .Decay ∧
    demoController.stability_mode ⟨1100000000⟩ = .Depeg ∧
    (demoController.stability_mode ⟨1600000000⟩).ord ≤
      (demoController.stability_mode ⟨1300000000⟩).ord :=
  ⟨(stability_mode_threshold_classification demoController ⟨1600000000⟩
      ⟨1600000000⟩ (by decide)).1.mpr (by decide),
   (stability_mode_threshold_classification demoController ⟨1300000000⟩
      ⟨1300000000⟩ (by decide)).2.1.mpr (by decide),
   (stability_mode_threshold_classification demoController ⟨1100000000⟩
      ⟨1100000000⟩ (by decide)).2.2.1.mpr (by decide),
   (stability_mode_threshold_classification demoController ⟨1300000000⟩
      ⟨1600000000⟩ (by decide)).2.2.2 (by decide)⟩

/-- Claim C4: `stablecoin_nav` is exactly 1.0 whenever the stability mode
is not `Depeg`, for any supply and collateral, and in `Depeg` it is the
total value locked over the stablecoin supply at the oracle lower bound. -/
theorem stablecoin_nav_one_unless_depeg (ctx : ExchangeContext) :
    (ctx.stability_mode ≠ .Depeg →
      ctx.stablecoin_nav = .ok (UFix64.one 9)) ∧
    (ctx.stability_mode = .Depeg →
      ctx.stablecoin_nav = depeg_stablecoin_nav ctx.total_sol
        ctx.sol_usd_price.lower ctx.stablecoin_supply) := by
  unfold ExchangeContext.stablecoin_nav
  cases h : ctx.stability_mode <;> simp

/-- Claim C4 witness: the `Decay` reference context has NAV exactly one,
and the `Depeg` reference context takes the depeg NAV. -/
theorem stablecoin_nav_one_unless_depeg_witness :
    demoCtx.stablecoin_nav = .ok (UFix64.one 9) ∧
    demoCtxDepeg.stablecoin_nav = depeg_stablecoin_nav demoCtxDepeg.total_sol
      demoCtxDepeg.sol_usd_price.lower demoCtxDepeg.stablecoin_supply :=
  ⟨(stablecoin_nav_one_unless_depeg demoCtx).1 (by decide),
   (stablecoin_nav_one_unless_depeg demoCtxDepeg).2 (by decide)⟩

/-- Reference clock in epoch 5. -/
def demoClock : Clock := { epoch := 5, unix_timestamp := 1000 }

/-- Reference collateral cache tagged with epoch 5. -/
def demoCache : TotalSolCache := { value := ⟨1000000000000000⟩, epoch := 5 }

/-- Reference oracle configuration: 60 second staleness window, one percent
confidence tolerance. -/
def demoOracleConfig : OracleConfig :=
  { max_staleness_secs := 60, conf_tolerance := ⟨1000000⟩ }

/-- Reference oracle update: 20 USD, zero confidence width, fresh. -/
def demoFeed : PriceUpdateV2 :=
  { price := 2000000000, conf := 0, publish_time := 1000 }

/-- Claim C6: `ExchangeContext::load` yields a context only when the
collateral cache epoch equals the clock epoch; on a mismatch the whole
construction fails with the staleness error, and any successful
construction used the cache value of the current epoch. -/
theorem load_requires_fresh_collateral_cache (clock : Clock)
    (cache : TotalSolCache) (sc : StabilityController) (ocfg : OracleConfig)
    (sf : StablecoinFees) (lf : LevercoinFees) (feed : PriceUpdateV2)
    (smint : Mint) (lmint : Option Mint) :
    (cache.epoch ≠ clock.epoch →
      ExchangeContext.load clock cache sc ocfg sf lf feed smint lmint =
        .error .StaleCollateralCache) ∧
    (∀ ctx,
      ExchangeContext.load clock cache sc ocfg sf lf feed smint lmint =
        .ok ctx → cache.epoch = clock.epoch ∧ ctx.total_sol = cache.value) := by
  constructor
  · intro h
    unfold ExchangeContext.load TotalSolCache.get_validated
    rw [if_neg h]
    rfl
  · intro ctx h
    unfold ExchangeContext.load TotalSolCache.get_validated at h
    by_cases he : cache.epoch = clock.epoch
    · refine ⟨he, ?_⟩
      rw [if_pos he] at h
      rw [exceptBind_ok_iff] at h
      obtain ⟨ts, hts, h⟩ := h
      rw [exceptBind_ok_iff] at h
      obtain ⟨pr, hpr, h⟩ := h
      rw [exceptBind_ok_iff] at h
      obtain ⟨cr, hcr, h⟩ := h
      simp only [Except.ok.injEq] at h hts
      rw [← h]
      exact hts.symm
    · rw [if_neg he] at h
      simp [Bind.bind, Except.bind] at h

/-- Claim C6 witness: loading with an epoch-4 clock against the epoch-5
cache fails with the staleness error, and the successful epoch-5 load used
the cache value. -/
theorem load_requires_fresh_collateral_cache_witness :
    ExchangeContext.load { epoch := 4, unix_timestamp := 1000 } demoCache
        demoController demoOracleConfig demoStablecoinFees demoLevercoinFees
        demoFeed ⟨15000000000000⟩ (some ⟨1000000000000⟩) =
      .error .StaleCollateralCache ∧
    (demoCache.epoch = demoClock.epoch ∧ demoCtx.total_sol = demoCache.value) :=
  ⟨(load_requires_fresh_collateral_cache { epoch := 4, unix_timestamp := 1000 }
      demoCache demoController demoOracleConfig demoStablecoinFees
      demoLevercoinFees demoFeed ⟨15000000000000⟩
      (some ⟨1000000000000⟩)).1 (by decide),
   (load_requires_fresh_collateral_cache demoClock demoCache demoController
      demoOracleConfig demoStablecoinFees demoLevercoinFees demoFeed
      ⟨15000000000000⟩ (some ⟨1000000000000⟩)).2 demoCtx (by rfl)⟩

/-- Claim C7 counterexample: the two ceiling violations are not reported as
distinct error kinds — at the reference context and an oversized request,
the mint-ceiling validator and the swap-ceiling validator fail with the
very same `RequestedStablecoinOverMaxMintable` error. -/
theorem validate_ceiling_errors_not_distinct :
    demoCtx.validate_stablecoin_amount ⟨2000000000000⟩ =
      .error .RequestedStablecoinOverMaxMintable ∧
    demoCtx.validate_stablecoin_swap_amount ⟨2000000000000⟩ =
      .error .RequestedStablecoinOverMaxMintable ∧
    demoCtx.validate_stablecoin_amount ⟨2000000000000⟩ =
      demoCtx.validate_stablecoin_swap_amount ⟨2000000000000⟩ :=
  ⟨by rfl, by rfl, by rfl⟩

/-- Claim C7 as amended: `validate_stablecoin_amount` passes the requested
amount through unchanged iff it is at most `max_mintable_stablecoin` and
`validate_stablecoin_swap_amount` iff it is at most
`max_swappable_stablecoin`; both ceiling violations are reported with the
single error kind `RequestedStablecoinOverMaxMintable`. -/
theorem validate_ceilings_single_error_kind (ctx : ExchangeContext)
    (a mx msw : UFix64 6) (hmx : ctx.max_mintable_stablecoin = .ok mx)
    (hmsw : ctx.max_swappable_stablecoin = .ok msw) :
    (a.bits ≤ mx.bits → ctx.validate_stablecoin_amount a = .ok a) ∧
    (mx.bits < a.bits → ctx.validate_stablecoin_amount a =
      .error .RequestedStablecoinOverMaxMintable) ∧
    (a.bits ≤ msw.bits → ctx.validate_stablecoin_swap_amount a = .ok a) ∧
    (msw.bits < a.bits → ctx.validate_stablecoin_swap_amount a =
      .error .RequestedStablecoinOverMaxMintable) := by
  unfold ExchangeContext.validate_stablecoin_amount
    ExchangeContext.validate_stablecoin_swap_amount
  rw [hmx, hmsw]
  refine ⟨fun h => ?_, fun h => ?_, fun h => ?_, fun h => ?_⟩ <;>
    simp [Bind.bind, Except.bind] <;> omega

/-- Claim C7 witness: at the reference context, whose two ceilings both
evaluate to 1,666,666.666666, a small request passes both validators
unchanged and an oversized request trips both. -/
theorem validate_ceilings_single_error_kind_witness :
    demoCtx.validate_stablecoin_amount ⟨100⟩ = .ok ⟨100⟩ ∧
    demoCtx.validate_stablecoin_amount ⟨2000000000000⟩ =
      .error .RequestedStablecoinOverMaxMintable ∧
    demoCtx.validate_stablecoin_swap_amount ⟨100⟩ = .ok ⟨100⟩ ∧
    demoCtx.validate_stablecoin_swap_amount ⟨2000000000000⟩ =
      .error .RequestedStablecoinOverMaxMintable :=
  ⟨(validate_ceilings_single_error_kind demoCtx ⟨100⟩ ⟨1666666666666⟩
      ⟨1666666666666⟩ (by rfl) (by rfl)).1 (by decide),
   (validate_ceilings_single_error_kind demoCtx ⟨2000000000000⟩
      ⟨1666666666666⟩ ⟨1666666666666⟩ (by rfl) (by rfl)).2.1 (by decide),
   (validate_ceilings_single_error_kind demoCtx ⟨100⟩ ⟨1666666666666⟩
      ⟨1666666666666⟩ (by rfl) (by rfl)).2.2.1 (by decide),
   (validate_ceilings_single_error_kind demoCtx ⟨2000000000000⟩
      ⟨1666666666666⟩ ⟨1666666666666⟩ (by rfl) (by rfl)).2.2.2 (by decide)⟩

/-- Claim C3: whenever `FeeExtract` construction succeeds, the extracted
fee and the remaining amount sum exactly to the input amount at its scale,
and this invariant holds for the fee extraction of every mint, redeem,
swap and pool-withdrawal path. -/
theorem fee_extract_parts_sum_to_input :
    (∀ (e : Nat) (fee : UFix64 4) (amount : UFix64 e) (fx : FeeExtract e),
      FeeExtract.new fee amount = .ok fx →
      fx.fees_extracted.bits + fx.amount_remaining.bits = amount.bits) ∧
    (∀ (ctx : ExchangeContext) (lst : LstSolPrice) (a : UFix64 9)
        (fx : FeeExtract 9), ctx.stablecoin_mint_fee lst a = .ok fx →
      fx.fees_extracted.bits + fx.amount_remaining.bits = a.bits) ∧
    (∀ (ctx : ExchangeContext) (lst : LstSolPrice) (a : UFix64 9)
        (fx : FeeExtract 9), ctx.stablecoin_redeem_fee lst a = .ok fx →
      fx.fees_extracted.bits + fx.amount_remaining.bits = a.bits) ∧
    (∀ (ctx : ExchangeContext) (lst : LstSolPrice) (a : UFix64 9)
        (fx : FeeExtract 9), ctx.levercoin_mint_fee lst a = .ok fx →
      fx.fees_extracted.bits + fx.amount_remaining.bits = a.bits) ∧
    (∀ (ctx : ExchangeContext) (lst : LstSolPrice) (a : UFix64 9)
        (fx : FeeExtract 9), ctx.levercoin_redeem_fee lst a = .ok fx →
      fx.fees_extracted.bits + fx.amount_remaining.bits = a.bits) ∧
    (∀ (ctx : ExchangeContext) (a : UFix64 6) (fx : FeeExtract 6),
      ctx.levercoin_to_stablecoin_fee a = .ok fx →
      fx.fees_extracted.bits + fx.amount_remaining.bits = a.bits) ∧
    (∀ (ctx : ExchangeContext) (a : UFix64 6) (fx : FeeExtract 6),
      ctx.stablecoin_to_levercoin_fee a = .ok fx →
      fx.fees_extracted.bits + fx.amount_remaining.bits = a.bits) ∧
    (∀ (m : Mint) (hp xp : TokenAccount) (pc : PoolConfig)
        (sin : UFix64 6) (q : Quote), shyusd_redeem m hp xp pc sin = .ok q →
      ∃ w : UFix64 6,
        amount_token_to_withdraw sin ⟨m.supply⟩ ⟨hp.amount⟩ = .ok w ∧
        q.fee_amount + q.out_amount = w.bits) := by
  refine ⟨fun e fee amount fx h => feeExtract_new_sum_aux fee amount fx h,
    fun ctx lst a fx h => stablecoin_mint_fee_sum_aux ctx lst a fx h,
    fun ctx lst a fx h => stablecoin_redeem_fee_sum_aux ctx lst a fx h,
    fun ctx lst a fx h => levercoin_mint_fee_sum_aux ctx lst a fx h,
    fun ctx lst a fx h => levercoin_redeem_fee_sum_aux ctx lst a fx h,
    fun ctx a fx h => levercoin_to_stablecoin_fee_sum_aux ctx a fx h,
    fun ctx a fx h => stablecoin_to_levercoin_fee_sum_aux ctx a fx h,
    fun m hp xp pc sin q h => ?_⟩
  · unfold shyusd_redeem at h
    by_cases hx : xp.amount = 0
    · rw [if_pos hx] at h
      simp only [exceptBind_ok_iff, liftE_ok_iff] at h
      obtain ⟨w, hw, fx, hfx, pct, -, h⟩ := h
      refine ⟨w, hw, ?_⟩
      simp only [Except.ok.injEq] at h
      rw [← h]
      exact feeExtract_new_sum_aux _ _ _ hfx
    · rw [if_neg hx] at h
      exact absurd h (by simp)

/-- Claim C3 witness: concrete successful extractions on the reference
context for each path, each summing exactly to its input. -/
theorem fee_extract_parts_sum_to_input_witness :
    (10000000 : Nat) + 990000000 = 1000000000 ∧
    (500000 : Nat) + 49500000 = 50000000 ∧
    (50000 : Nat) + 4950000 = 5000000 ∧
    (10000 : Nat) + 990000 = 1000000 ∧
    ∃ w : UFix64 6,
      amount_token_to_withdraw ⟨1000000⟩ ⟨1000000000000⟩ ⟨1000000000000⟩ =
        .ok w ∧ (5000 : Nat) + 995000 = w.bits :=
  ⟨fee_extract_parts_sum_to_input.2.1 demoCtx demoLstPrice ⟨1000000000⟩
      ⟨⟨10000000⟩, ⟨990000000⟩⟩ (by rfl),
   fee_extract_parts_sum_to_input.2.2.1 demoCtx demoLstPrice ⟨50000000⟩
      ⟨⟨500000⟩, ⟨49500000⟩⟩ (by rfl),
   fee_extract_parts_sum_to_input.2.2.2.2.2.1 demoCtx ⟨5000000⟩
      ⟨⟨50000⟩, ⟨4950000⟩⟩ (by rfl),
   fee_extract_parts_sum_to_input.2.2.2.2.2.2.1 demoCtx ⟨1000000⟩
      ⟨⟨10000⟩, ⟨990000⟩⟩ (by rfl),
   fee_extract_parts_sum_to_input.2.2.2.2.2.2.2 ⟨1000000000000⟩
      ⟨1000000000000⟩ ⟨0⟩ ⟨⟨50⟩⟩ ⟨1000000⟩
      ⟨1000000, 995000, 5000, HYUSD, 5000⟩ (by rfl)⟩

/-- Claim C2 counterexample: in `hyusd_redeem` the fee is not extracted
from the operation's input amount (hyUSD, the asset the user supplies): at
the reference context the quote denominates its fee in the LST output mint,
and the fee and payout split the converted LST amount 50,000,000 — a total
that is not the input amount 1,000,000. -/
theorem hyusd_redeem_fee_from_converted_output :
    hyusd_redeem demoCtx demoLstHeader ⟨1000000⟩ =
      .ok ⟨1000000, 49500000, 500000, JITOSOL, 10000000⟩ ∧
    JITOSOL ≠ HYUSD ∧
    (500000 : Nat) + 49500000 = 50000000 ∧
    (500000 : Nat) + 49500000 ≠ 1000000 :=
  ⟨by rfl, by decide, by decide, by decide⟩

/-- Claim C2 as amended: `hyusd_mint` and `xsol_mint` extract the fee from
the input LST and convert only the remainder (`hyusd_mint` validating the
converted amount against the mint ceiling), and `hyusd_xsol_swap` extracts
the fee from the input stablecoin and converts only the remainder;
`hyusd_redeem` and `xsol_redeem` first convert the full input through the
respective NAV and extract the fee from the converted LST amount;
`xsol_hyusd_swap` first converts the full input, validates the converted
amount against the swap ceiling, and extracts the fee from the converted
stablecoin amount.  Fees split exactly the amount they are taken from, and
are denominated in the asset they are taken from. -/
theorem quote_fee_extraction_points (ctx : ExchangeContext)
    (hdr : LstHeader) (a9 : UFix64 9) (a6 : UFix64 6) (q : Quote) :
    (hyusd_mint ctx hdr a9 = .ok q →
      ∃ (fx : FeeExtract 9) (nav : UFix64 9) (conv : Conversion)
        (c : UFix64 6),
        ctx.stablecoin_mint_fee hdr.price_sol a9 = .ok fx ∧
        fx.fees_extracted.bits + fx.amount_remaining.bits = a9.bits ∧
        ctx.stablecoin_nav = .ok nav ∧
        ctx.token_conversion hdr.price_sol = .ok conv ∧
        conv.lst_to_token fx.amount_remaining nav = .ok c ∧
        ctx.validate_stablecoin_amount c = .ok c ∧
        q.in_amount = a9.bits ∧ q.out_amount = c.bits ∧
        q.fee_amount = fx.fees_extracted.bits ∧ q.fee_mint = hdr.mint) ∧
    (xsol_mint ctx hdr a9 = .ok q →
      ∃ (fx : FeeExtract 9) (nav : UFix64 9) (conv : Conversion)
        (c : UFix64 6),
        ctx.levercoin_mint_fee hdr.price_sol a9 = .ok fx ∧
        fx.fees_extracted.bits + fx.amount_remaining.bits = a9.bits ∧
        ctx.levercoin_mint_nav = .ok nav ∧
        ctx.token_conversion hdr.price_sol = .ok conv ∧
        conv.lst_to_token fx.amount_remaining nav = .ok c ∧
        q.in_amount = a9.bits ∧ q.out_amount = c.bits ∧
        q.fee_amount = fx.fees_extracted.bits ∧ q.fee_mint = hdr.mint) ∧
    (hyusd_redeem ctx hdr a6 = .ok q →
      ∃ (nav : UFix64 9) (conv : Conversion) (lst_out : UFix64 9)
        (fx : FeeExtract 9),
        ctx.stablecoin_nav = .ok nav ∧
        ctx.token_conversion hdr.price_sol = .ok conv ∧
        conv.token_to_lst a6 nav = .ok lst_out ∧
        ctx.stablecoin_redeem_fee hdr.price_sol lst_out = .ok fx ∧
        fx.fees_extracted.bits + fx.amount_remaining.bits = lst_out.bits ∧
        q.in_amount = a6.bits ∧ q.out_amount = fx.amount_remaining.bits ∧
        q.fee_amount = fx.fees_extracted.bits ∧ q.fee_mint = hdr.mint) ∧
    (xsol_redeem ctx hdr a6 = .ok q →
      ∃ (nav : UFix64 9) (conv : Conversion) (lst_out : UFix64 9)
        (fx : FeeExtract 9),
        ctx.levercoin_redeem_nav = .ok nav ∧
        ctx.token_conversion hdr.price_sol = .ok conv ∧
        conv.token_to_lst a6 nav = .ok lst_out ∧
        ctx.levercoin_redeem_fee hdr.price_sol lst_out = .ok fx ∧
        fx.fees_extracted.bits + fx.amount_remaining.bits = lst_out.bits ∧
        q.in_amount = a6.bits ∧ q.out_amount = fx.amount_remaining.bits ∧
        q.fee_amount = fx.fees_extracted.bits ∧ q.fee_mint = hdr.mint) ∧
    (hyusd_xsol_swap ctx a6 = .ok q →
      ∃ (fx : FeeExtract 6) (sc : SwapConversion) (c : UFix64 6),
        ctx.stablecoin_to_levercoin_fee a6 = .ok fx ∧
        fx.fees_extracted.bits + fx.amount_remaining.bits = a6.bits ∧
        ctx.swap_conversion = .ok sc ∧
        sc.stable_to_lever fx.amount_remaining = .ok c ∧
        q.in_amount = a6.bits ∧ q.out_amount = c.bits ∧
        q.fee_amount = fx.fees_extracted.bits ∧ q.fee_mint = HYUSD) ∧
    (xsol_hyusd_swap ctx a6 = .ok q →
      ∃ (sc : SwapConversion) (c : UFix64 6) (fx : FeeExtract 6),
        ctx.swap_conversion = .ok sc ∧
        sc.lever_to_stable a6 = .ok c ∧
        ctx.validate_stablecoin_swap_amount c = .ok c ∧
        ctx.levercoin_to_stablecoin_fee c = .ok fx ∧
        fx.fees_extracted.bits + fx.amount_remaining.bits = c.bits ∧
        q.in_amount = a6.bits ∧ q.out_amount = fx.amount_remaining.bits ∧
        q.fee_amount = fx.fees_extracted.bits ∧ q.fee_mint = HYUSD) := by
  refine ⟨fun h => ?_, fun h => ?_, fun h => ?_, fun h => ?_,
    fun h => ?_, fun h => ?_⟩
  · unfold hyusd_mint at h
    simp only [exceptBind_ok_iff, liftE_ok_iff] at h
    obtain ⟨fx, hfx, nav, hnav, conv, hconv, c, hc, out, hout, pct, -, hq⟩ := h
    obtain rfl := validate_amount_ok_id_aux ctx c out hout
    simp only [Except.ok.injEq] at hq
    subst hq
    exact ⟨fx, nav, conv, out,
      hfx, stablecoin_mint_fee_sum_aux ctx hdr.price_sol a9 fx hfx,
      hnav, hconv, hc, hout, rfl, rfl, rfl, rfl⟩
  · unfold xsol_mint at h
    simp only [exceptBind_ok_iff, liftE_ok_iff] at h
    obtain ⟨fx, hfx, nav, hnav, conv, hconv, c, hc, pct, -, hq⟩ := h
    simp only [Except.ok.injEq] at hq
    subst hq
    exact ⟨fx, nav, conv, c,
      hfx, levercoin_mint_fee_sum_aux ctx hdr.price_sol a9 fx hfx,
      hnav, hconv, hc, rfl, rfl, rfl, rfl⟩
  · unfold hyusd_redeem at h
    simp only [exceptBind_ok_iff, liftE_ok_iff] at h
    obtain ⟨nav, hnav, conv, hconv, lst_out, hlst, fx, hfx, pct, -, hq⟩ := h
    simp only [Except.ok.injEq] at hq
    subst hq
    exact ⟨nav, conv, lst_out, fx, hnav, hconv, hlst, hfx,
      stablecoin_redeem_fee_sum_aux ctx hdr.price_sol lst_out fx hfx,
      rfl, rfl, rfl, rfl⟩
  · unfold xsol_redeem at h
    simp only [exceptBind_ok_iff, liftE_ok_iff] at h
    obtain ⟨nav, hnav, conv, hconv, lst_out, hlst, fx, hfx, pct, -, hq⟩ := h
    simp only [Except.ok.injEq] at hq
    subst hq
    exact ⟨nav, conv, lst_out, fx, hnav, hconv, hlst, hfx,
      levercoin_redeem_fee_sum_aux ctx hdr.price_sol lst_out fx hfx,
      rfl, rfl, rfl, rfl⟩
  · unfold hyusd_xsol_swap at h
    simp only [exceptBind_ok_iff, liftE_ok_iff] at h
    obtain ⟨fx, hfx, sc, hsc, c, hc, pct, -, hq⟩ := h
    simp only [Except.ok.injEq] at hq
    subst hq
    exact ⟨fx, sc, c,
      hfx, stablecoin_to_levercoin_fee_sum_aux ctx a6 fx hfx,
      hsc, hc, rfl, rfl, rfl, rfl⟩
  · unfold xsol_hyusd_swap at h
    simp only [exceptBind_ok_iff, liftE_ok_iff] at h
    obtain ⟨sc, hsc, c, hc, total, htotal, fx, hfx, pct, -, hq⟩ := h
    obtain rfl := validate_swap_ok_id_aux ctx c total htotal
    simp only [Except.ok.injEq] at hq
    subst hq
    exact ⟨sc, total, fx, hsc, hc, htotal, hfx,
      levercoin_to_stablecoin_fee_sum_aux ctx total fx hfx,
      rfl, rfl, rfl, rfl⟩

/-- Claim C2 amended witness: the decomposition applied to concrete
successful quotes on the reference context for all six paths — both
mints, both redeems and both swap directions. -/
theorem quote_fee_extraction_points_witness :
    (∃ (fx : FeeExtract 9) (nav : UFix64 9) (conv : Conversion)
      (c : UFix64 6),
      demoCtx.stablecoin_mint_fee demoLstHeader.price_sol ⟨1000000000⟩ =
        .ok fx ∧
      fx.fees_extracted.bits + fx.amount_remaining.bits = 1000000000 ∧
      demoCtx.stablecoin_nav = .ok nav ∧
      demoCtx.token_conversion demoLstHeader.price_sol = .ok conv ∧
      conv.lst_to_token fx.amount_remaining nav = .ok c ∧
      demoCtx.validate_stablecoin_amount c = .ok c ∧
      (1000000000 : Nat) = 1000000000 ∧ (19800000 : Nat) = c.bits ∧
      (10000000 : Nat) = fx.fees_extracted.bits ∧
      JITOSOL = demoLstHeader.mint) ∧
    (∃ (fx : FeeExtract 9) (nav : UFix64 9) (conv : Conversion)
      (c : UFix64 6),
      demoCtx.levercoin_mint_fee demoLstHeader.price_sol ⟨1000000000⟩ =
        .ok fx ∧
      fx.fees_extracted.bits + fx.amount_remaining.bits = 1000000000 ∧
      demoCtx.levercoin_mint_nav = .ok nav ∧
      demoCtx.token_conversion demoLstHeader.price_sol = .ok conv ∧
      conv.lst_to_token fx.amount_remaining nav = .ok c ∧
      (1000000000 : Nat) = 1000000000 ∧ (3960000 : Nat) = c.bits ∧
      (10000000 : Nat) = fx.fees_extracted.bits ∧
      JITOSOL = demoLstHeader.mint) ∧
    (∃ (nav : UFix64 9) (conv : Conversion) (lst_out : UFix64 9)
      (fx : FeeExtract 9),
      demoCtx.stablecoin_nav = .ok nav ∧
      demoCtx.token_conversion demoLstHeader.price_sol = .ok conv ∧
      conv.token_to_lst ⟨1000000⟩ nav = .ok lst_out ∧
      demoCtx.stablecoin_redeem_fee demoLstHeader.price_sol lst_out =
        .ok fx ∧
      fx.fees_extracted.bits + fx.amount_remaining.bits = lst_out.bits ∧
      (1000000 : Nat) = 1000000 ∧ (49500000 : Nat) = fx.amount_remaining.bits ∧
      (500000 : Nat) = fx.fees_extracted.bits ∧
      JITOSOL = demoLstHeader.mint) ∧
    (∃ (nav : UFix64 9) (conv : Conversion) (lst_out : UFix64 9)
      (fx : FeeExtract 9),
      demoCtx.levercoin_redeem_nav = .ok nav ∧
      demoCtx.token_conversion demoLstHeader.price_sol = .ok conv ∧
      conv.token_to_lst ⟨1000000⟩ nav = .ok lst_out ∧
      demoCtx.levercoin_redeem_fee demoLstHeader.price_sol lst_out =
        .ok fx ∧
      fx.fees_extracted.bits + fx.amount_remaining.bits = lst_out.bits ∧
      (1000000 : Nat) = 1000000 ∧
      (247500000 : Nat) = fx.amount_remaining.bits ∧
      (2500000 : Nat) = fx.fees_extracted.bits ∧
      JITOSOL = demoLstHeader.mint) ∧
    (∃ (fx : FeeExtract 6) (sc : SwapConversion) (c : UFix64 6),
      demoCtx.stablecoin_to_levercoin_fee ⟨1000000⟩ = .ok fx ∧
      fx.fees_extracted.bits + fx.amount_remaining.bits = 1000000 ∧
      demoCtx.swap_conversion = .ok sc ∧
      sc.stable_to_lever fx.amount_remaining = .ok c ∧
      (1000000 : Nat) = 1000000 ∧ (198000 : Nat) = c.bits ∧
      (10000 : Nat) = fx.fees_extracted.bits ∧ HYUSD = HYUSD) ∧
    (∃ (sc : SwapConversion) (c : UFix64 6) (fx : FeeExtract 6),
      demoCtx.swap_conversion = .ok sc ∧
      sc.lever_to_stable ⟨1000000⟩ = .ok c ∧
      demoCtx.validate_stablecoin_swap_amount c = .ok c ∧
      demoCtx.levercoin_to_stablecoin_fee c = .ok fx ∧
      fx.fees_extracted.bits + fx.amount_remaining.bits = c.bits ∧
      (1000000 : Nat) = 1000000 ∧ (4950000 : Nat) = fx.amount_remaining.bits ∧
      (50000 : Nat) = fx.fees_extracted.bits ∧ HYUSD = HYUSD) :=
  ⟨(quote_fee_extraction_points demoCtx demoLstHeader ⟨1000000000⟩ ⟨1000000⟩
      ⟨1000000000, 19800000, 10000000, JITOSOL, 10000000⟩).1 (by rfl),
   (quote_fee_extraction_points demoCtx demoLstHeader ⟨1000000000⟩ ⟨1000000⟩
      ⟨1000000000, 3960000, 10000000, JITOSOL, 10000000⟩).2.1 (by rfl),
   (quote_fee_extraction_points demoCtx demoLstHeader ⟨1000000000⟩ ⟨1000000⟩
      ⟨1000000, 49500000, 500000, JITOSOL, 10000000⟩).2.2.1 (by rfl),
   (quote_fee_extraction_points demoCtx demoLstHeader ⟨1000000000⟩ ⟨1000000⟩
      ⟨1000000, 247500000, 2500000, JITOSOL, 10000000⟩).2.2.2.1 (by rfl),
   (quote_fee_extraction_points demoCtx demoLstHeader ⟨1000000000⟩ ⟨1000000⟩
      ⟨1000000, 198000, 10000, HYUSD, 10000⟩).2.2.2.2.1 (by rfl),
   (quote_fee_extraction_points demoCtx demoLstHeader ⟨1000000000⟩ ⟨1000000⟩
      ⟨1000000, 4950000, 50000, HYUSD, 10000⟩).2.2.2.2.2 (by rfl)⟩

/-- Reference context with no levercoin mint configured. -/
def demoCtxNoLever : ExchangeContext :=
  { demoCtx with levercoin_supply_opt := none }

/-- Reference context with a configured levercoin mint of zero supply. -/
def demoCtxZeroLever : ExchangeContext :=
  { demoCtx with levercoin_supply_opt := some ⟨0⟩ }

/-- Claim C8 counterexample: the missing-levercoin failure is not a
distinct error kind — with a levercoin mint configured but of zero supply,
the mint-NAV computation fails with the very same `LevercoinNav` error
that the supply-absent context produces, so the two causes are not
distinguishable. -/
theorem levercoin_missing_error_not_distinct :
    demoCtxZeroLever.levercoin_supply_opt = some ⟨0⟩ ∧
    demoCtxZeroLever.levercoin_supply = .ok ⟨0⟩ ∧
    demoCtxZeroLever.levercoin_mint_nav = .error .LevercoinNav ∧
    demoCtxNoLever.levercoin_supply_opt = none ∧
    demoCtxNoLever.levercoin_mint_nav = .error .LevercoinNav ∧
    demoCtxZeroLever.levercoin_mint_nav = demoCtxNoLever.levercoin_mint_nav :=
  ⟨by rfl, by rfl, by rfl, by rfl, by rfl, by rfl⟩

/-- Claim C8 as amended: in a context without a levercoin mint, the
levercoin supply accessor fails with the `LevercoinNav` error, and the
levercoin mint NAV, redeem NAV and the swap conversion built from them
fail with the same `LevercoinNav` error (once the stablecoin NAV itself
is computable); this kind is shared with levercoin NAV arithmetic
failures rather than being a distinct missing-supply kind. -/
theorem missing_levercoin_ops_fail (ctx : ExchangeContext)
    (h : ctx.levercoin_supply_opt = none) :
    ctx.levercoin_supply = .error .LevercoinNav ∧
    (∀ nav : UFix64 9, ctx.stablecoin_nav = .ok nav →
      ctx.levercoin_mint_nav = .error .LevercoinNav ∧
      ctx.levercoin_redeem_nav = .error .LevercoinNav ∧
      ctx.swap_conversion = .error .LevercoinNav) := by
  refine ⟨?_, fun nav hnav => ⟨?_, ?_, ?_⟩⟩
  · simp [ExchangeContext.levercoin_supply, h]
  · simp [ExchangeContext.levercoin_mint_nav, ExchangeContext.levercoin_supply,
      h, hnav, Bind.bind, Except.bind]
  · simp [ExchangeContext.levercoin_redeem_nav,
      ExchangeContext.levercoin_supply, h, hnav, Bind.bind, Except.bind]
  · simp [ExchangeContext.swap_conversion,
      ExchangeContext.levercoin_redeem_nav, ExchangeContext.levercoin_supply,
      h, hnav, Bind.bind, Except.bind]

/-- Claim C8 amended witness: the supply-absent reference context fails all
four levercoin operations with the `LevercoinNav` error. -/
theorem missing_levercoin_ops_fail_witness :
    demoCtxNoLever.levercoin_supply = .error .LevercoinNav ∧
    demoCtxNoLever.levercoin_mint_nav = .error .LevercoinNav ∧
    demoCtxNoLever.levercoin_redeem_nav = .error .LevercoinNav ∧
    demoCtxNoLever.swap_conversion = .error .LevercoinNav :=
  ⟨(missing_levercoin_ops_fail demoCtxNoLever (by rfl)).1,
   ((missing_levercoin_ops_fail demoCtxNoLever (by rfl)).2 (UFix64.one 9)
      (by rfl)).1,
   ((missing_levercoin_ops_fail demoCtxNoLever (by rfl)).2 (UFix64.one 9)
      (by rfl)).2.1,
   ((missing_levercoin_ops_fail demoCtxNoLever (by rfl)).2 (UFix64.one 9)
      (by rfl)).2.2⟩

/-- Reference context whose collateral sits at the top of the u64 range. -/
def demoCtxMaxSol : ExchangeContext :=
  { demoCtx with total_sol := ⟨18446744073709551615⟩ }

/-- Reference context with zero collateral recorded. -/
def demoCtxZeroSol : ExchangeContext :=
  { demoCtx with total_sol := ⟨0⟩ }

/-- Reference context whose stablecoin supply sits at the top of the u64
range, in `Stable` mode. -/
def demoCtxMaxSupply : ExchangeContext :=
  { demoCtx with
    stablecoin_supply := ⟨18446744073709551615⟩
    stability_mode := .Stable }

/-- Reference context with zero stablecoin supply, in `Stable` mode. -/
def demoCtxZeroSupply : ExchangeContext :=
  { demoCtx with stablecoin_supply := ⟨0⟩, stability_mode := .Stable }

/-- Claim C9: the projected totals of the stablecoin fee paths are fully
checked — overflowing the new SOL total, underflowing it, overflowing the
new stablecoin total or underflowing it each yields its explicit error
(`DestinationFeeSol` or `DestinationFeeStablecoin`, two distinct kinds),
and any success implies the totals stayed in the u64 range, so no value
ever wraps. -/
theorem projected_totals_checked (ctx : ExchangeContext)
    (lst : LstSolPrice) (a : UFix64 9) :
    (∀ v : UFix64 9, lst.convert_sol a ctx.clock.epoch = .ok v →
      U64MOD ≤ ctx.total_sol.bits + v.bits →
      ctx.stablecoin_mint_fee lst a = .error .DestinationFeeSol) ∧
    (∀ v : UFix64 9, lst.convert_sol a ctx.clock.epoch = .ok v →
      ctx.total_sol.bits < v.bits →
      ctx.stablecoin_redeem_fee lst a = .error .DestinationFeeSol) ∧
    (∀ (v : UFix64 9) (conv : Conversion) (nav : UFix64 9) (t : UFix64 6),
      lst.convert_sol a ctx.clock.epoch = .ok v →
      ctx.total_sol.bits + v.bits < U64MOD →
      ctx.token_conversion lst = .ok conv →
      ctx.stablecoin_nav = .ok nav →
      conv.lst_to_token a nav = .ok t →
      U64MOD ≤ t.bits + ctx.stablecoin_supply.bits →
      ctx.stablecoin_mint_fee lst a = .error .DestinationFeeStablecoin) ∧
    (∀ (v : UFix64 9) (conv : Conversion) (nav : UFix64 9) (t : UFix64 6),
      lst.convert_sol a ctx.clock.epoch = .ok v →
      v.bits ≤ ctx.total_sol.bits →
      ctx.token_conversion lst = .ok conv →
      ctx.stablecoin_nav = .ok nav →
      conv.lst_to_token a nav = .ok t →
      ctx.stablecoin_supply.bits < t.bits →
      ctx.stablecoin_redeem_fee lst a = .error .DestinationFeeStablecoin) ∧
    CoreError.DestinationFeeSol ≠ CoreError.DestinationFeeStablecoin ∧
    (∀ fx : FeeExtract 9, ctx.stablecoin_mint_fee lst a = .ok fx →
      ∃ v : UFix64 9, lst.convert_sol a ctx.clock.epoch = .ok v ∧
        ctx.total_sol.bits + v.bits < U64MOD) ∧
    (∀ fx : FeeExtract 9, ctx.stablecoin_redeem_fee lst a = .ok fx →
      ∃ v : UFix64 9, lst.convert_sol a ctx.clock.epoch = .ok v ∧
        v.bits ≤ ctx.total_sol.bits) := by
  refine ⟨fun v hv hov => ?_, fun v hv hun => ?_,
    fun v conv nav t hv hfit hconv hnav ht hov => ?_,
    fun v conv nav t hv hfit hconv hnav ht hun => ?_,
    by decide, fun fx h => ?_, fun fx h => ?_⟩
  · have hlt : ¬ (ctx.total_sol.bits + v.bits < U64MOD) := by omega
    simp [ExchangeContext.stablecoin_mint_fee, hv, Bind.bind, Except.bind,
      okOr, UFix64.checked_add, hlt]
  · have hlt : ¬ (v.bits ≤ ctx.total_sol.bits) := by omega
    simp [ExchangeContext.stablecoin_redeem_fee, hv, Bind.bind, Except.bind,
      okOr, UFix64.checked_sub, hlt]
  · have hlt : ¬ (t.bits + ctx.stablecoin_supply.bits < U64MOD) := by omega
    simp [ExchangeContext.stablecoin_mint_fee, hv, hconv, hnav, ht,
      Bind.bind, Except.bind, okOr, UFix64.checked_add, hfit, hlt]
  · have hlt : ¬ (t.bits ≤ ctx.stablecoin_supply.bits) := by omega
    have hsub : ctx.stablecoin_supply.bits < t.bits := hun
    simp [ExchangeContext.stablecoin_redeem_fee, hv, hconv, hnav, ht,
      Bind.bind, Except.bind, okOr, UFix64.checked_sub, hfit, hlt]
  · unfold ExchangeContext.stablecoin_mint_fee at h
    simp only [exceptBind_ok_iff] at h
    obtain ⟨v, hv, nts, hnts, -⟩ := h
    refine ⟨v, hv, ?_⟩
    unfold okOr UFix64.checked_add at hnts
    by_cases hc : ctx.total_sol.bits + v.bits < U64MOD
    · exact hc
    · rw [if_neg hc] at hnts
      exact absurd hnts (by simp)
  · unfold ExchangeContext.stablecoin_redeem_fee at h
    simp only [exceptBind_ok_iff] at h
    obtain ⟨v, hv, nts, hnts, -⟩ := h
    refine ⟨v, hv, ?_⟩
    unfold okOr UFix64.checked_sub at hnts
    by_cases hc : v.bits ≤ ctx.total_sol.bits
    · exact hc
    · rw [if_neg hc] at hnts
      exact absurd hnts (by simp)

/-- Claim C9 witness: concrete overflow, underflow and success runs — each
projected-total violation yields its explicit error and the successful
reference mint implies its totals stayed in range. -/
theorem projected_totals_checked_witness :
    demoCtxMaxSol.stablecoin_mint_fee demoLstPrice ⟨1000000000⟩ =
      .error .DestinationFeeSol ∧
    demoCtxZeroSol.stablecoin_redeem_fee demoLstPrice ⟨1000000000⟩ =
      .error .DestinationFeeSol ∧
    demoCtxMaxSupply.stablecoin_mint_fee demoLstPrice ⟨1000000000⟩ =
      .error .DestinationFeeStablecoin ∧
    demoCtxZeroSupply.stablecoin_redeem_fee demoLstPrice ⟨1000000000⟩ =
      .error .DestinationFeeStablecoin ∧
    (∃ v : UFix64 9,
      demoLstPrice.convert_sol ⟨1000000000⟩ demoCtx.clock.epoch = .ok v ∧
      demoCtx.total_sol.bits + v.bits < U64MOD) :=
  ⟨(projected_totals_checked demoCtxMaxSol demoLstPrice ⟨1000000000⟩).1
      ⟨1000000000⟩ (by rfl) (by decide),
   (projected_totals_checked demoCtxZeroSol demoLstPrice ⟨1000000000⟩).2.1
      ⟨1000000000⟩ (by rfl) (by decide),
   (projected_totals_checked demoCtxMaxSupply demoLstPrice
      ⟨1000000000⟩).2.2.1 ⟨1000000000⟩
      ⟨⟨⟨2000000000⟩, ⟨2000000000⟩⟩, ⟨1000000000⟩⟩ ⟨1000000000⟩ ⟨20000000⟩
      (by rfl) (by decide) (by rfl) (by rfl) (by rfl) (by decide),
   (projected_totals_checked demoCtxZeroSupply demoLstPrice
      ⟨1000000000⟩).2.2.2.1 ⟨1000000000⟩
      ⟨⟨⟨2000000000⟩, ⟨2000000000⟩⟩, ⟨1000000000⟩⟩ ⟨1000000000⟩ ⟨20000000⟩
      (by rfl) (by decide) (by rfl) (by rfl) (by rfl) (by decide),
   (projected_totals_checked demoCtx demoLstPrice
      ⟨1000000000⟩).2.2.2.2.2.1 ⟨⟨10000000⟩, ⟨990000000⟩⟩ (by rfl)⟩

/-- Claim C10: the sHYUSD-to-hyUSD redemption quote succeeds only when the
xSOL stability-pool balance is exactly zero — any non-zero balance yields
an error and no quote — and on success the payout is the pro-rata
stablecoin withdrawal minus the configured withdrawal fee, the two parts
splitting the withdrawal exactly. -/
theorem shyusd_redeem_requires_empty_xsol_pool (m : Mint)
    (hp xp : TokenAccount) (pc : PoolConfig) (sin : UFix64 6) :
    (xp.amount ≠ 0 →
      shyusd_redeem m hp xp pc sin = .error .xsolInPool) ∧
    (∀ q : Quote, shyusd_redeem m hp xp pc sin = .ok q →
      xp.amount = 0 ∧
      ∃ (w : UFix64 6) (fx : FeeExtract 6),
        amount_token_to_withdraw sin ⟨m.supply⟩ ⟨hp.amount⟩ = .ok w ∧
        FeeExtract.new pc.withdrawal_fee w = .ok fx ∧
        q.in_amount = sin.bits ∧
        q.out_amount = fx.amount_remaining.bits ∧
        q.fee_amount = fx.fees_extracted.bits ∧
        fx.fees_extracted.bits + fx.amount_remaining.bits = w.bits) := by
  constructor
  · intro h
    unfold shyusd_redeem
    rw [if_neg h]
  · intro q h
    unfold shyusd_redeem at h
    by_cases hx : xp.amount = 0
    · rw [if_pos hx] at h
      simp only [exceptBind_ok_iff, liftE_ok_iff] at h
      obtain ⟨w, hw, fx, hfx, pct, -, hq⟩ := h
      simp only [Except.ok.injEq] at hq
      subst hq
      exact ⟨hx, w, fx, hw, hfx, rfl, rfl, rfl,
        feeExtract_new_sum_aux _ _ _ hfx⟩
    · rw [if_neg hx] at h
      exact absurd h (by simp)

/-- Claim C10 witness: a pool holding five xSOL units blocks the quote,
and the empty-pool redemption of one sHYUSD pays the pro-rata withdrawal
minus the half-percent fee. -/
theorem shyusd_redeem_requires_empty_xsol_pool_witness :
    shyusd_redeem ⟨1000000000000⟩ ⟨1000000000000⟩ ⟨5⟩ ⟨⟨50⟩⟩ ⟨1000000⟩ =
      .error .xsolInPool ∧
    ((5 : Nat) ≠ 0) ∧
    ((0 : Nat) = 0 ∧
      ∃ (w : UFix64 6) (fx : FeeExtract 6),
        amount_token_to_withdraw ⟨1000000⟩ ⟨1000000000000⟩
          ⟨1000000000000⟩ = .ok w ∧
        FeeExtract.new ⟨50⟩ w = .ok fx ∧
        (1000000 : Nat) = 1000000 ∧
        (995000 : Nat) = fx.amount_remaining.bits ∧
        (5000 : Nat) = fx.fees_extracted.bits ∧
        fx.fees_extracted.bits + fx.amount_remaining.bits = w.bits) :=
  ⟨(shyusd_redeem_requires_empty_xsol_pool ⟨1000000000000⟩ ⟨1000000000000⟩
      ⟨5⟩ ⟨⟨50⟩⟩ ⟨1000000⟩).1 (by decide),
   by decide,
   (shyusd_redeem_requires_empty_xsol_pool ⟨1000000000000⟩ ⟨1000000000000⟩
      ⟨0⟩ ⟨⟨50⟩⟩ ⟨1000000⟩).2 ⟨1000000, 995000, 5000, HYUSD, 5000⟩
      (by rfl)⟩

end Hylo
